import Mathlib

/-!
Verification of `OgreMain/src/OgrePixelFormatGpuUtils.cpp` (class
`PixelFormatGpuUtils`): a shallow embedding of the pixel-format descriptor
table, the size calculators, the format queries and the per-pixel colour
codec, with theorems about the specified properties.

Machine integers are modelled as `Nat`/`Int` (the C++ values involved never
overflow their storage types where this matters, noted locally), and the
binary32 colour lanes as exact rationals `ℚ`; every arithmetic step that is
exact in binary32 at the inputs a theorem evaluates is exact in `ℚ` as well.
-/

namespace OgrePF

/-- The pixel format identifiers, in the order of `msPixelFormatDesc`
(`PFG_UNKNOWN` through `PFG_ATC_RGBA_INTERPOLATED_ALPHA`); the `PFG_COUNT`
sentinel bounds the table and is not a valid format, so it is not a
constructor.  `PFG_420_OPQ` stands for the source's `PFG_420_OPAQUE`. -/
inductive PixelFormatGpu where
  | PFG_UNKNOWN
  | PFG_RGBA32_FLOAT
  | PFG_RGBA32_UINT
  | PFG_RGBA32_SINT
  | PFG_RGB32_FLOAT
  | PFG_RGB32_UINT
  | PFG_RGB32_SINT
  | PFG_RGBA16_FLOAT
  | PFG_RGBA16_UNORM
  | PFG_RGBA16_UINT
  | PFG_RGBA16_SNORM
  | PFG_RGBA16_SINT
  | PFG_RG32_FLOAT
  | PFG_RG32_UINT
  | PFG_RG32_SINT
  | PFG_D32_FLOAT_S8X24_UINT
  | PFG_R10G10B10A2_UNORM
  | PFG_R10G10B10A2_UINT
  | PFG_R11G11B10_FLOAT
  | PFG_RGBA8_UNORM
  | PFG_RGBA8_UNORM_SRGB
  | PFG_RGBA8_UINT
  | PFG_RGBA8_SNORM
  | PFG_RGBA8_SINT
  | PFG_RG16_FLOAT
  | PFG_RG16_UNORM
  | PFG_RG16_UINT
  | PFG_RG16_SNORM
  | PFG_RG16_SINT
  | PFG_D32_FLOAT
  | PFG_R32_FLOAT
  | PFG_R32_UINT
  | PFG_R32_SINT
  | PFG_D24_UNORM
  | PFG_D24_UNORM_S8_UINT
  | PFG_RG8_UNORM
  | PFG_RG8_UINT
  | PFG_RG8_SNORM
  | PFG_RG8_SINT
  | PFG_R16_FLOAT
  | PFG_D16_UNORM
  | PFG_R16_UNORM
  | PFG_R16_UINT
  | PFG_R16_SNORM
  | PFG_R16_SINT
  | PFG_R8_UNORM
  | PFG_R8_UINT
  | PFG_R8_SNORM
  | PFG_R8_SINT
  | PFG_A8_UNORM
  | PFG_R1_UNORM
  | PFG_R9G9B9E5_SHAREDEXP
  | PFG_R8G8_B8G8_UNORM
  | PFG_G8R8_G8B8_UNORM
  | PFG_BC1_UNORM
  | PFG_BC1_UNORM_SRGB
  | PFG_BC2_UNORM
  | PFG_BC2_UNORM_SRGB
  | PFG_BC3_UNORM
  | PFG_BC3_UNORM_SRGB
  | PFG_BC4_UNORM
  | PFG_BC4_SNORM
  | PFG_BC5_UNORM
  | PFG_BC5_SNORM
  | PFG_B5G6R5_UNORM
  | PFG_B5G5R5A1_UNORM
  | PFG_BGRA8_UNORM
  | PFG_BGRX8_UNORM
  | PFG_R10G10B10_XR_BIAS_A2_UNORM
  | PFG_BGRA8_UNORM_SRGB
  | PFG_BGRX8_UNORM_SRGB
  | PFG_BC6H_UF16
  | PFG_BC6H_SF16
  | PFG_BC7_UNORM
  | PFG_BC7_UNORM_SRGB
  | PFG_AYUV
  | PFG_Y410
  | PFG_Y416
  | PFG_NV12
  | PFG_P010
  | PFG_P016
  | PFG_420_OPQ
  | PFG_YUY2
  | PFG_Y210
  | PFG_Y216
  | PFG_NV11
  | PFG_AI44
  | PFG_IA44
  | PFG_P8
  | PFG_A8P8
  | PFG_B4G4R4A4_UNORM
  | PFG_P208
  | PFG_V208
  | PFG_V408
  | PFG_PVRTC_RGB2
  | PFG_PVRTC_RGBA2
  | PFG_PVRTC_RGB4
  | PFG_PVRTC_RGBA4
  | PFG_PVRTC2_2BPP
  | PFG_PVRTC2_4BPP
  | PFG_ETC1_RGB8_UNORM
  | PFG_ETC2_RGB8_UNORM
  | PFG_ETC2_RGB8_UNORM_SRGB
  | PFG_ETC2_RGBA8_UNORM
  | PFG_ETC2_RGBA8_UNORM_SRGB
  | PFG_ETC2_RGB8A1_UNORM
  | PFG_ETC2_RGB8A1_UNORM_SRGB
  | PFG_EAC_R11_UNORM
  | PFG_EAC_R11_SNORM
  | PFG_EAC_R11G11_UNORM
  | PFG_EAC_R11G11_SNORM
  | PFG_ATC_RGB
  | PFG_ATC_RGBA_EXPLICIT_ALPHA
  | PFG_ATC_RGBA_INTERPOLATED_ALPHA
  deriving DecidableEq, Fintype

open PixelFormatGpu

/-- The `PFF_*` flag bits of a descriptor, modelled as a set of booleans
(the numeric bit positions live in the header, which only the flag
identities of this translation unit depend on). -/
structure PixelFormatFlagSet where
  float : Bool := false
  half : Bool := false
  floatRare : Bool := false
  integer : Bool := false
  signed : Bool := false
  normalized : Bool := false
  srgb : Bool := false
  depth : Bool := false
  stencil : Bool := false
  compressed : Bool := false
  pallete : Bool := false
  deriving DecidableEq

def flagsNone : PixelFormatFlagSet := {}
def flagsFloat : PixelFormatFlagSet := { float := true }
def flagsHalf : PixelFormatFlagSet := { half := true }
def flagsFloatRare : PixelFormatFlagSet := { floatRare := true }
def flagsInteger : PixelFormatFlagSet := { integer := true }
def flagsIntegerSigned : PixelFormatFlagSet := { integer := true, signed := true }
def flagsIntegerNormalized : PixelFormatFlagSet := { integer := true, normalized := true }
def flagsIntegerNormalizedSrgb : PixelFormatFlagSet :=
  { integer := true, normalized := true, srgb := true }
def flagsIntegerSignedNormalized : PixelFormatFlagSet :=
  { integer := true, signed := true, normalized := true }
def flagsFloatDepth : PixelFormatFlagSet := { float := true, depth := true }
def flagsFloatDepthStencil : PixelFormatFlagSet :=
  { float := true, depth := true, stencil := true }
def flagsIntegerNormalizedDepth : PixelFormatFlagSet :=
  { integer := true, normalized := true, depth := true }
def flagsIntegerNormalizedDepthStencil : PixelFormatFlagSet :=
  { integer := true, normalized := true, depth := true, stencil := true }
def flagsPallete : PixelFormatFlagSet := { pallete := true }

/-- `PFF_COMPRESSED_COMMON = PFF_COMPRESSED | PFF_INTEGER | PFF_NORMALIZED`. -/
def flagsCompressedCommon : PixelFormatFlagSet :=
  { compressed := true, integer := true, normalized := true }
def flagsCompressedCommonSrgb : PixelFormatFlagSet :=
  { compressed := true, integer := true, normalized := true, srgb := true }
def flagsCompressedCommonSigned : PixelFormatFlagSet :=
  { compressed := true, integer := true, normalized := true, signed := true }
def flagsCompressedFloatRare : PixelFormatFlagSet :=
  { compressed := true, floatRare := true }
def flagsCompressedFloatRareSigned : PixelFormatFlagSet :=
  { compressed := true, floatRare := true, signed := true }

/-- One row of `msPixelFormatDesc`: display name, component count,
bytes per pixel, flag set. -/
structure PixelFormatDesc where
  name : String
  components : Nat
  bytesPerPixel : Nat
  flags : PixelFormatFlagSet

/-- The static descriptor table `msPixelFormatDesc`, as a total lookup over
the valid identifiers (the bounds check of `getDescriptionFor` is absorbed
by the type). -/
def msPixelFormatDesc : PixelFormatGpu → PixelFormatDesc
  | PFG_UNKNOWN => ⟨"PFG_UNKNOWN", 1, 0, flagsNone⟩
  | PFG_RGBA32_FLOAT => ⟨"PFG_RGBA32_FLOAT", 4, 16, flagsFloat⟩
  | PFG_RGBA32_UINT => ⟨"PFG_RGBA32_UINT", 4, 16, flagsInteger⟩
  | PFG_RGBA32_SINT => ⟨"PFG_RGBA32_INT", 4, 16, flagsIntegerSigned⟩
  | PFG_RGB32_FLOAT => ⟨"PFG_RGB32_FLOAT", 3, 12, flagsFloat⟩
  | PFG_RGB32_UINT => ⟨"PFG_RGB32_UINT", 3, 12, flagsInteger⟩
  | PFG_RGB32_SINT => ⟨"PFG_RGB32_INT", 3, 12, flagsIntegerSigned⟩
  | PFG_RGBA16_FLOAT => ⟨"PFG_RGBA16_FLOAT", 4, 8, flagsHalf⟩
  | PFG_RGBA16_UNORM => ⟨"PFG_RGBA16_UNORM", 4, 8, flagsIntegerNormalized⟩
  | PFG_RGBA16_UINT => ⟨"PFG_RGBA16_UINT", 4, 8, flagsInteger⟩
  | PFG_RGBA16_SNORM => ⟨"PFG_RGBA16_SNORM", 4, 8, flagsIntegerSignedNormalized⟩
  | PFG_RGBA16_SINT => ⟨"PFG_RGBA16_SINT", 4, 8, flagsIntegerSigned⟩
  | PFG_RG32_FLOAT => ⟨"PFG_RG32_FLOAT", 2, 8, flagsFloat⟩
  | PFG_RG32_UINT => ⟨"PFG_RG32_UINT", 2, 8, flagsInteger⟩
  | PFG_RG32_SINT => ⟨"PFG_RG32_SINT", 2, 8, flagsIntegerSigned⟩
  | PFG_D32_FLOAT_S8X24_UINT => ⟨"PFG_D32_FLOAT_S8X24_UINT", 2, 8, flagsFloatDepthStencil⟩
  | PFG_R10G10B10A2_UNORM => ⟨"PFG_R10G10B10A2_UNORM", 4, 4, flagsIntegerNormalized⟩
  | PFG_R10G10B10A2_UINT => ⟨"PFG_R10G10B10A2_UINT", 4, 4, flagsInteger⟩
  | PFG_R11G11B10_FLOAT => ⟨"PFG_R11G11B10_FLOAT", 3, 4, flagsFloatRare⟩
  | PFG_RGBA8_UNORM => ⟨"PFG_RGBA8_UNORM", 4, 4, flagsIntegerNormalized⟩
  | PFG_RGBA8_UNORM_SRGB => ⟨"PFG_RGBA8_UNORM_SRGB", 4, 4, flagsIntegerNormalizedSrgb⟩
  | PFG_RGBA8_UINT => ⟨"PFG_RGBA8_UINT", 4, 4, flagsInteger⟩
  | PFG_RGBA8_SNORM => ⟨"PFG_RGBA8_SNORM", 4, 4, flagsIntegerSignedNormalized⟩
  | PFG_RGBA8_SINT => ⟨"PFG_RGBA8_SINT", 4, 4, flagsIntegerSigned⟩
  | PFG_RG16_FLOAT => ⟨"PFG_RG16_FLOAT", 2, 4, flagsHalf⟩
  | PFG_RG16_UNORM => ⟨"PFG_RG16_UNORM", 2, 4, flagsIntegerNormalized⟩
  | PFG_RG16_UINT => ⟨"PFG_RG16_UINT", 2, 4, flagsInteger⟩
  | PFG_RG16_SNORM => ⟨"PFG_RG16_SNORM", 2, 4, flagsIntegerSignedNormalized⟩
  | PFG_RG16_SINT => ⟨"PFG_RG16_SINT", 2, 4, flagsIntegerSigned⟩
  | PFG_D32_FLOAT => ⟨"PFG_D32_FLOAT", 1, 4, flagsFloatDepth⟩
  | PFG_R32_FLOAT => ⟨"PFG_R32_FLOAT", 1, 4, flagsFloat⟩
  | PFG_R32_UINT => ⟨"PFG_R32_UINT", 1, 4, flagsInteger⟩
  | PFG_R32_SINT => ⟨"PFG_R32_SINT", 1, 4, flagsIntegerSigned⟩
  | PFG_D24_UNORM => ⟨"PFG_D24_UNORM", 1, 4, flagsIntegerNormalizedDepth⟩
  | PFG_D24_UNORM_S8_UINT => ⟨"PFG_D24_UNORM_S8_UINT", 1, 4, flagsIntegerNormalizedDepthStencil⟩
  | PFG_RG8_UNORM => ⟨"PFG_RG8_UNORM", 2, 2, flagsIntegerNormalized⟩
  | PFG_RG8_UINT => ⟨"PFG_RG8_UINT", 2, 2, flagsInteger⟩
  | PFG_RG8_SNORM => ⟨"PFG_RG8_SNORM", 2, 2, flagsIntegerSignedNormalized⟩
  | PFG_RG8_SINT => ⟨"PFG_RG8_SINT", 2, 2, flagsIntegerSigned⟩
  | PFG_R16_FLOAT => ⟨"PFG_R16_FLOAT", 1, 2, flagsHalf⟩
  | PFG_D16_UNORM => ⟨"PFG_D16_UNORM", 1, 2, flagsIntegerNormalizedDepth⟩
  | PFG_R16_UNORM => ⟨"PFG_R16_UNORM", 1, 2, flagsIntegerNormalized⟩
  | PFG_R16_UINT => ⟨"PFG_R16_UINT", 1, 2, flagsInteger⟩
  | PFG_R16_SNORM => ⟨"PFG_R16_SNORM", 1, 2, flagsIntegerSignedNormalized⟩
  | PFG_R16_SINT => ⟨"PFG_R16_SINT", 1, 2, flagsIntegerSigned⟩
  | PFG_R8_UNORM => ⟨"PFG_R8_UNORM", 1, 1, flagsIntegerNormalized⟩
  | PFG_R8_UINT => ⟨"PFG_R8_UINT", 1, 1, flagsInteger⟩
  | PFG_R8_SNORM => ⟨"PFG_R8_SNORM", 1, 1, flagsIntegerSignedNormalized⟩
  | PFG_R8_SINT => ⟨"PFG_R8_SINT", 1, 1, flagsIntegerSigned⟩
  | PFG_A8_UNORM => ⟨"PFG_A8_UNORM", 1, 1, flagsIntegerNormalized⟩
  | PFG_R1_UNORM => ⟨"PFG_R1_UNORM", 1, 0, flagsNone⟩
  | PFG_R9G9B9E5_SHAREDEXP => ⟨"PFG_R9G9B9E5_SHAREDEXP", 1, 4, flagsFloatRare⟩
  | PFG_R8G8_B8G8_UNORM => ⟨"PFG_R8G8_B8G8_UNORM", 4, 4, flagsIntegerNormalized⟩
  | PFG_G8R8_G8B8_UNORM => ⟨"PFG_G8R8_G8B8_UNORM", 4, 4, flagsIntegerSignedNormalized⟩
  | PFG_BC1_UNORM => ⟨"PFG_BC1_UNORM", 4, 0, flagsCompressedCommon⟩
  | PFG_BC1_UNORM_SRGB => ⟨"PFG_BC1_UNORM_SRGB", 4, 0, flagsCompressedCommonSrgb⟩
  | PFG_BC2_UNORM => ⟨"PFG_BC2_UNORM", 4, 0, flagsCompressedCommon⟩
  | PFG_BC2_UNORM_SRGB => ⟨"PFG_BC2_UNORM_SRGB", 4, 0, flagsCompressedCommonSrgb⟩
  | PFG_BC3_UNORM => ⟨"PFG_BC3_UNORM", 4, 0, flagsCompressedCommon⟩
  | PFG_BC3_UNORM_SRGB => ⟨"PFG_BC3_UNORM_SRGB", 4, 0, flagsCompressedCommonSrgb⟩
  | PFG_BC4_UNORM => ⟨"PFG_BC4_UNORM", 1, 0, flagsCompressedCommon⟩
  | PFG_BC4_SNORM => ⟨"PFG_BC4_SNORM", 1, 0, flagsCompressedCommonSigned⟩
  | PFG_BC5_UNORM => ⟨"PFG_BC5_UNORM", 2, 0, flagsCompressedCommon⟩
  | PFG_BC5_SNORM => ⟨"PFG_BC5_SNORM", 2, 0, flagsCompressedCommonSigned⟩
  | PFG_B5G6R5_UNORM => ⟨"PFG_B5G6R5_UNORM", 3, 2, flagsIntegerNormalized⟩
  | PFG_B5G5R5A1_UNORM => ⟨"PFG_B5G5R5A1_UNORM", 3, 2, flagsIntegerNormalized⟩
  | PFG_BGRA8_UNORM => ⟨"PFG_BGRA8_UNORM", 4, 4, flagsIntegerNormalized⟩
  | PFG_BGRX8_UNORM => ⟨"PFG_BGRX8_UNORM", 4, 4, flagsIntegerNormalized⟩
  | PFG_R10G10B10_XR_BIAS_A2_UNORM =>
      ⟨"PFG_R10G10B10_XR_BIAS_A2_UNORM", 4, 4, flagsFloatRare⟩
  | PFG_BGRA8_UNORM_SRGB => ⟨"PFG_BGRA8_UNORM_SRGB", 4, 4, flagsIntegerNormalizedSrgb⟩
  | PFG_BGRX8_UNORM_SRGB => ⟨"PFG_BGRX8_UNORM_SRGB", 3, 4, flagsIntegerNormalizedSrgb⟩
  | PFG_BC6H_UF16 => ⟨"PFG_BC6H_UF16", 3, 0, flagsCompressedFloatRare⟩
  | PFG_BC6H_SF16 => ⟨"PFG_BC6H_SF16", 3, 0, flagsCompressedFloatRareSigned⟩
  | PFG_BC7_UNORM => ⟨"PFG_BC7_UNORM", 4, 0, flagsCompressedCommon⟩
  | PFG_BC7_UNORM_SRGB => ⟨"PFG_BC7_UNORM_SRGB", 4, 0, flagsCompressedCommonSrgb⟩
  | PFG_AYUV => ⟨"PFG_AYUV", 3, 0, flagsNone⟩
  | PFG_Y410 => ⟨"PFG_Y410", 3, 0, flagsNone⟩
  | PFG_Y416 => ⟨"PFG_Y416", 3, 0, flagsNone⟩
  | PFG_NV12 => ⟨"PFG_NV12", 3, 0, flagsNone⟩
  | PFG_P010 => ⟨"PFG_P010", 3, 0, flagsNone⟩
  | PFG_P016 => ⟨"PFG_P016", 3, 0, flagsNone⟩
  | PFG_420_OPQ => ⟨"PFG_420_OPAQUE", 3, 0, flagsNone⟩
  | PFG_YUY2 => ⟨"PFG_YUY2", 3, 0, flagsNone⟩
  | PFG_Y210 => ⟨"PFG_Y210", 3, 0, flagsNone⟩
  | PFG_Y216 => ⟨"PFG_Y216", 3, 0, flagsNone⟩
  | PFG_NV11 => ⟨"PFG_NV11", 3, 0, flagsNone⟩
  | PFG_AI44 => ⟨"PFG_AI44", 3, 0, flagsNone⟩
  | PFG_IA44 => ⟨"PFG_IA44", 3, 0, flagsNone⟩
  | PFG_P8 => ⟨"PFG_P8", 1, 1, flagsPallete⟩
  | PFG_A8P8 => ⟨"PFG_A8P8", 1, 2, flagsPallete⟩
  | PFG_B4G4R4A4_UNORM => ⟨"PFG_B4G4R4A4_UNORM", 4, 2, flagsIntegerNormalized⟩
  | PFG_P208 => ⟨"PFG_P208", 3, 0, flagsNone⟩
  | PFG_V208 => ⟨"PFG_V208", 3, 0, flagsNone⟩
  | PFG_V408 => ⟨"PFG_V408", 3, 0, flagsNone⟩
  | PFG_PVRTC_RGB2 => ⟨"PFG_PVRTC_RGB2", 3, 0, flagsCompressedCommon⟩
  | PFG_PVRTC_RGBA2 => ⟨"PFG_PVRTC_RGBA2", 4, 0, flagsCompressedCommon⟩
  | PFG_PVRTC_RGB4 => ⟨"PFG_PVRTC_RGB4", 3, 0, flagsCompressedCommon⟩
  | PFG_PVRTC_RGBA4 => ⟨"PFG_PVRTC_RGBA4", 4, 0, flagsCompressedCommon⟩
  | PFG_PVRTC2_2BPP => ⟨"PFG_PVRTC2_2BPP", 3, 0, flagsCompressedCommon⟩
  | PFG_PVRTC2_4BPP => ⟨"PFG_PVRTC2_4BPP", 3, 0, flagsCompressedCommon⟩
  | PFG_ETC1_RGB8_UNORM => ⟨"PFG_ETC1_RGB8_UNORM", 3, 0, flagsCompressedCommon⟩
  | PFG_ETC2_RGB8_UNORM => ⟨"PFG_ETC2_RGB8_UNORM", 3, 0, flagsCompressedCommon⟩
  | PFG_ETC2_RGB8_UNORM_SRGB => ⟨"PFG_ETC2_RGB8_UNORM_SRGB", 3, 0, flagsCompressedCommonSrgb⟩
  | PFG_ETC2_RGBA8_UNORM => ⟨"PFG_ETC2_RGBA8_UNORM", 4, 0, flagsCompressedCommon⟩
  | PFG_ETC2_RGBA8_UNORM_SRGB => ⟨"PFG_ETC2_RGBA8_UNORM_SRGB", 4, 0, flagsCompressedCommonSrgb⟩
  | PFG_ETC2_RGB8A1_UNORM => ⟨"PFG_ETC2_RGB8A1_UNORM", 4, 0, flagsCompressedCommon⟩
  | PFG_ETC2_RGB8A1_UNORM_SRGB => ⟨"PFG_ETC2_RGB8A1_UNORM_SRGB", 4, 0, flagsCompressedCommonSrgb⟩
  | PFG_EAC_R11_UNORM => ⟨"PFG_EAC_R11_UNORM", 1, 0, flagsCompressedCommon⟩
  | PFG_EAC_R11_SNORM => ⟨"PFG_EAC_R11_SNORM", 1, 0, flagsCompressedCommonSigned⟩
  | PFG_EAC_R11G11_UNORM => ⟨"PFG_EAC_R11G11_UNORM", 2, 0, flagsCompressedCommon⟩
  | PFG_EAC_R11G11_SNORM => ⟨"PFG_EAC_R11G11_SNORM", 2, 0, flagsCompressedCommonSigned⟩
  | PFG_ATC_RGB => ⟨"PFG_ATC_RGB", 3, 0, flagsCompressedCommon⟩
  | PFG_ATC_RGBA_EXPLICIT_ALPHA => ⟨"PFG_ATC_RGBA_EXPLICIT_ALPHA", 4, 0, flagsCompressedCommon⟩
  | PFG_ATC_RGBA_INTERPOLATED_ALPHA =>
      ⟨"PFG_ATC_RGBA_INTERPOLATED_ALPHA", 4, 0, flagsCompressedCommon⟩

/-- `PixelFormatGpuUtils::getBytesPerPixel`. -/
def getBytesPerPixel (format : PixelFormatGpu) : Nat :=
  (msPixelFormatDesc format).bytesPerPixel

/-- `PixelFormatGpuUtils::getNumberOfComponents`. -/
def getNumberOfComponents (format : PixelFormatGpu) : Nat :=
  (msPixelFormatDesc format).components

/-- `PixelFormatGpuUtils::getFlags`. -/
def getFlags (format : PixelFormatGpu) : PixelFormatFlagSet :=
  (msPixelFormatDesc format).flags

/-- `PixelFormatGpuUtils::isCompressed`: `(desc.flags & PFF_COMPRESSED) != 0`. -/
def isCompressed (format : PixelFormatGpu) : Bool :=
  (getFlags format).compressed

/-- `PixelFormatGpuUtils::isPallete`. -/
def isPallete (format : PixelFormatGpu) : Bool :=
  (getFlags format).pallete

/-- The two error kinds `OGRE_EXCEPT` raises in this translation unit
(`ERR_INVALIDPARAMS` and `ERR_NOT_IMPLEMENTED`). -/
inductive ErrKind where
  | invalidParams
  | notImplemented
  deriving DecidableEq

/-- `Ogre::alignToNextMultiple(offset, alignment) = ((offset + alignment - 1) /
alignment) * alignment` (declared in a header outside this translation unit;
this is its one-line body, also the spec's `alignUp`). -/
def alignToNextMultiple (offset alignment : Nat) : Nat :=
  (offset + alignment - 1) / alignment * alignment

/-- The compressed-format arm of `getSizeBytes`: the `switch` over the
block-compressed and PVRTC formats, returning `none` for the `default`
branch (which raises `ERR_INVALIDPARAMS`).  `(w + 3) / 4` is the C++
`(width + 3u) / 4u`, i.e. `ceil(width / 4)`. -/
def compressedSizeBytes (format : PixelFormatGpu) (width height depth slices : Nat) :
    Option Nat :=
  match format with
  | PFG_BC1_UNORM | PFG_BC1_UNORM_SRGB
  | PFG_BC4_UNORM | PFG_BC4_SNORM
  | PFG_EAC_R11_UNORM | PFG_EAC_R11_SNORM
  | PFG_ETC1_RGB8_UNORM
  | PFG_ETC2_RGB8_UNORM_SRGB
  | PFG_ETC2_RGB8A1_UNORM | PFG_ETC2_RGB8A1_UNORM_SRGB
  | PFG_ATC_RGB =>
      some ((width + 3) / 4 * ((height + 3) / 4) * 8 * depth * slices)
  | PFG_BC2_UNORM | PFG_BC2_UNORM_SRGB
  | PFG_BC3_UNORM | PFG_BC3_UNORM_SRGB
  | PFG_BC5_SNORM | PFG_BC5_UNORM
  | PFG_BC6H_SF16 | PFG_BC6H_UF16
  | PFG_BC7_UNORM | PFG_BC7_UNORM_SRGB
  | PFG_ETC2_RGBA8_UNORM | PFG_ETC2_RGBA8_UNORM_SRGB
  | PFG_EAC_R11G11_UNORM | PFG_EAC_R11G11_SNORM
  | PFG_ATC_RGBA_EXPLICIT_ALPHA | PFG_ATC_RGBA_INTERPOLATED_ALPHA =>
      some ((width + 3) / 4 * ((height + 3) / 4) * 16 * depth * slices)
  | PFG_PVRTC_RGB2 | PFG_PVRTC_RGBA2 | PFG_PVRTC2_2BPP =>
      some ((max width 16 * max height 8 * 2 + 7) / 8 * depth * slices)
  | PFG_PVRTC_RGB4 | PFG_PVRTC_RGBA4 | PFG_PVRTC2_4BPP =>
      some ((max width 8 * max height 8 * 4 + 7) / 8 * depth * slices)
  | _ => none

/-- `PixelFormatGpuUtils::getSizeBytes`.  Uncompressed formats take the
row-aligned linear formula; compressed formats go through the `switch`,
whose `default` raises `ERR_INVALIDPARAMS`. -/
def getSizeBytes (width height depth slices : Nat) (format : PixelFormatGpu)
    (rowAlignment : Nat) : Except ErrKind Nat :=
  if isCompressed format = false then
    .ok (alignToNextMultiple (width * getBytesPerPixel format) rowAlignment *
          (height * depth * slices))
  else
    match compressedSizeBytes format width height depth slices with
    | some bytes => .ok bytes
    | none => .error .invalidParams

/-- The loop of `PixelFormatGpuUtils::calculateSizeBytes`, structurally
recursive on the remaining mip count: while `(width > 1 || height > 1 ||
depth > 1) && numMipmaps > 0`, accumulate `getSizeBytes`, halve each
dimension (floor, minimum 1) and decrement the mip count. -/
def calculateSizeBytesAux (slices : Nat) (format : PixelFormatGpu) (rowAlignment : Nat) :
    Nat → Nat → Nat → Nat → Except ErrKind Nat
  | _, _, _, 0 => .ok 0
  | width, height, depth, Nat.succ n =>
    if width > 1 ∨ height > 1 ∨ depth > 1 then
      match getSizeBytes width height depth slices format rowAlignment with
      | .error e => .error e
      | .ok levelBytes =>
        match calculateSizeBytesAux slices format rowAlignment
            (max 1 (width / 2)) (max 1 (height / 2)) (max 1 (depth / 2)) n with
        | .error e => .error e
        | .ok restBytes => .ok (levelBytes + restBytes)
    else .ok 0

/-- `PixelFormatGpuUtils::calculateSizeBytes`, with the source's argument
order. -/
def calculateSizeBytes (width height depth slices : Nat) (format : PixelFormatGpu)
    (numMipmaps rowAlignment : Nat) : Except ErrKind Nat :=
  calculateSizeBytesAux slices format rowAlignment width height depth numMipmaps

/-- The `static_cast<float>(uint32)` conversion of the source: IEEE-754
round-to-nearest-even of `n` to a 24-bit significand.  Exact below `2^24`;
above, `n` is rounded to the nearest multiple of the binade's ulp
`2^(e - 23)` (ties to the even multiple), which can carry a value such as
`2^25 - 1` up to the next power of two.  The result is always an integer,
so it is returned as a `Nat`. -/
def floatCastU32 (n : Nat) : Nat :=
  if n < 2 ^ 24 then n
  else
    let ulp := 2 ^ (Nat.log2 n - 23)
    let d := n / ulp
    let r := n % ulp
    if 2 * r < ulp then d * ulp
    else if ulp < 2 * r then (d + 1) * ulp
    else if d % 2 = 0 then d * ulp else (d + 1) * ulp

/-- `PixelFormatGpuUtils::getMaxMipmapCount(uint32 maxResolution)`: `0` for
`maxResolution == 0`, otherwise
`floorf(log2f(static_cast<float>(maxResolution))) + 1`.  The integer-to-
float cast is modelled exactly (`floatCastU32`); `floorf(log2f(·))` on the
integral cast result is modelled as the exact integer base-2 logarithm
`Nat.log2`.  This is exact whenever the cast result is a power of two
(`log2` is then exactly representable, so any faithfully rounded `log2f`
returns it), which covers every concrete input evaluated below; at
non-powers a real `log2f` may shift the floor up by one for inputs of
about `2^20` and beyond (libm-dependent), which is why the bracketing
theorem below restricts itself to resolutions under `2^19`, where any
faithfully rounded `log2f` agrees with this model. -/
def getMaxMipmapCount (maxResolution : Nat) : Nat :=
  if maxResolution = 0 then 0 else Nat.log2 (floatCastU32 maxResolution) + 1

/-- The `(width, height)` overload: reduces to the max of the dimensions. -/
def getMaxMipmapCount2 (width height : Nat) : Nat :=
  getMaxMipmapCount (max width height)

/-- The `(width, height, depth)` overload. -/
def getMaxMipmapCount3 (width height depth : Nat) : Nat :=
  getMaxMipmapCount (max (max width height) depth)

/-- `PixelFormatGpuUtils::getCompressedBlockWidth(format, apiStrict)`. -/
def getCompressedBlockWidth (format : PixelFormatGpu) (apiStrict : Bool) : Nat :=
  match format with
  | PFG_BC1_UNORM | PFG_BC1_UNORM_SRGB
  | PFG_BC2_UNORM | PFG_BC2_UNORM_SRGB
  | PFG_BC3_UNORM | PFG_BC3_UNORM_SRGB
  | PFG_BC4_UNORM | PFG_BC4_SNORM
  | PFG_BC5_UNORM | PFG_BC5_SNORM
  | PFG_BC6H_UF16 | PFG_BC6H_SF16
  | PFG_BC7_UNORM | PFG_BC7_UNORM_SRGB
  | PFG_ETC2_RGB8_UNORM | PFG_ETC2_RGB8_UNORM_SRGB
  | PFG_ETC2_RGBA8_UNORM | PFG_ETC2_RGBA8_UNORM_SRGB
  | PFG_ETC2_RGB8A1_UNORM | PFG_ETC2_RGB8A1_UNORM_SRGB
  | PFG_EAC_R11_UNORM | PFG_EAC_R11_SNORM
  | PFG_EAC_R11G11_UNORM | PFG_EAC_R11G11_SNORM
  | PFG_ATC_RGB
  | PFG_ATC_RGBA_EXPLICIT_ALPHA
  | PFG_ATC_RGBA_INTERPOLATED_ALPHA => 4
  | PFG_ETC1_RGB8_UNORM => if apiStrict then 0 else 4
  | PFG_PVRTC_RGB2 | PFG_PVRTC_RGBA2
  | PFG_PVRTC_RGB4 | PFG_PVRTC_RGBA4
  | PFG_PVRTC2_2BPP | PFG_PVRTC2_4BPP => 0
  | _ => 1

/-- `PixelFormatGpuUtils::getCompressedBlockHeight` just forwards to
`getCompressedBlockWidth`. -/
def getCompressedBlockHeight (format : PixelFormatGpu) (apiStrict : Bool) : Nat :=
  getCompressedBlockWidth format apiStrict

/-- `PixelFormatGpuUtils::getFamily`. -/
def getFamily (format : PixelFormatGpu) : PixelFormatGpu :=
  match format with
  | PFG_RGBA32_FLOAT | PFG_RGBA32_UINT | PFG_RGBA32_SINT => PFG_RGBA32_UINT
  | PFG_RGB32_FLOAT | PFG_RGB32_UINT | PFG_RGB32_SINT => PFG_RGB32_UINT
  | PFG_RGBA16_FLOAT | PFG_RGBA16_UNORM | PFG_RGBA16_UINT
  | PFG_RGBA16_SNORM | PFG_RGBA16_SINT => PFG_RGBA16_UINT
  | PFG_RG32_FLOAT | PFG_RG32_UINT | PFG_RG32_SINT => PFG_RG32_UINT
  | PFG_R10G10B10A2_UNORM | PFG_R10G10B10A2_UINT => PFG_R10G10B10A2_UINT
  | PFG_R11G11B10_FLOAT => PFG_R11G11B10_FLOAT
  | PFG_RGBA8_UNORM | PFG_RGBA8_UNORM_SRGB | PFG_RGBA8_UINT
  | PFG_RGBA8_SNORM | PFG_RGBA8_SINT => PFG_RGBA8_UNORM
  | PFG_RG16_FLOAT | PFG_RG16_UNORM | PFG_RG16_UINT
  | PFG_RG16_SNORM | PFG_RG16_SINT => PFG_RG16_UINT
  | PFG_D32_FLOAT | PFG_R32_FLOAT | PFG_R32_UINT | PFG_R32_SINT => PFG_R32_UINT
  | PFG_D24_UNORM | PFG_D24_UNORM_S8_UINT => PFG_D24_UNORM_S8_UINT
  | PFG_RG8_UNORM | PFG_RG8_UINT | PFG_RG8_SNORM | PFG_RG8_SINT => PFG_RG8_UINT
  | PFG_R16_FLOAT | PFG_D16_UNORM | PFG_R16_UNORM | PFG_R16_UINT
  | PFG_R16_SNORM | PFG_R16_SINT => PFG_R16_UINT
  | PFG_R8_UNORM | PFG_R8_UINT | PFG_R8_SNORM | PFG_R8_SINT
  | PFG_A8_UNORM => PFG_R8_UINT
  | PFG_R8G8_B8G8_UNORM | PFG_G8R8_G8B8_UNORM => PFG_R8G8_B8G8_UNORM
  | PFG_BC1_UNORM | PFG_BC1_UNORM_SRGB => PFG_BC1_UNORM
  | PFG_BC2_UNORM | PFG_BC2_UNORM_SRGB => PFG_BC2_UNORM
  | PFG_BC3_UNORM | PFG_BC3_UNORM_SRGB => PFG_BC3_UNORM
  | PFG_BC4_UNORM | PFG_BC4_SNORM => PFG_BC4_UNORM
  | PFG_BC5_UNORM | PFG_BC5_SNORM => PFG_BC5_UNORM
  | PFG_BGRA8_UNORM | PFG_BGRA8_UNORM_SRGB => PFG_BGRA8_UNORM
  | PFG_BGRX8_UNORM | PFG_BGRX8_UNORM_SRGB => PFG_BGRX8_UNORM
  | PFG_BC6H_UF16 | PFG_BC6H_SF16 => PFG_BC6H_UF16
  | PFG_BC7_UNORM | PFG_BC7_UNORM_SRGB => PFG_BC7_UNORM
  | other => other

/-! ### Mip-chain bookkeeping used to state the size-additivity property -/

/-- The mip levels `calculateSizeBytes` visits: one `(width, height, depth)`
triple per loop iteration, i.e. while some dimension exceeds 1 and mips
remain.  Mirrors the loop of `calculateSizeBytesAux` with the accumulation
abstracted away. -/
def mipLevels : Nat → Nat → Nat → Nat → List (Nat × Nat × Nat)
  | _, _, _, 0 => []
  | width, height, depth, Nat.succ n =>
    if width > 1 ∨ height > 1 ∨ depth > 1 then
      (width, height, depth) ::
        mipLevels (max 1 (width / 2)) (max 1 (height / 2)) (max 1 (depth / 2)) n
    else []

/-- Sum of `getSizeBytes` over a list of mip levels (error-propagating,
left to right, like the loop). -/
def mipLevelSizeSum (slices : Nat) (format : PixelFormatGpu) (rowAlignment : Nat) :
    List (Nat × Nat × Nat) → Except ErrKind Nat
  | [] => .ok 0
  | (width, height, depth) :: rest =>
    match getSizeBytes width height depth slices format rowAlignment with
    | .error e => .error e
    | .ok levelBytes =>
      match mipLevelSizeSum slices format rowAlignment rest with
      | .error e => .error e
      | .ok restBytes => .ok (levelBytes + restBytes)

/-- The mip-chain sum as claim C2 words it: a level is accumulated for each
of the `numMipmaps` levels, halting only _after_ the level at which all
three dimensions have reached 1 (so a chain down to 1×1 includes the 1×1
level as its last summand). -/
def specMipChainSum (slices : Nat) (format : PixelFormatGpu) (rowAlignment : Nat) :
    Nat → Nat → Nat → Nat → Except ErrKind Nat
  | _, _, _, 0 => .ok 0
  | width, height, depth, Nat.succ n =>
    match getSizeBytes width height depth slices format rowAlignment with
    | .error e => .error e
    | .ok levelBytes =>
      if width ≤ 1 ∧ height ≤ 1 ∧ depth ≤ 1 then .ok levelBytes
      else
        match specMipChainSum slices format rowAlignment
            (max 1 (width / 2)) (max 1 (height / 2)) (max 1 (depth / 2)) n with
        | .error e => .error e
        | .ok restBytes => .ok (levelBytes + restBytes)

/-- The compressed formats the `switch` of `getSizeBytes` gives a size to
(its non-`default` case labels). -/
def sizedCompressedFormats : List PixelFormatGpu :=
  [PFG_BC1_UNORM, PFG_BC1_UNORM_SRGB, PFG_BC4_UNORM, PFG_BC4_SNORM,
   PFG_EAC_R11_UNORM, PFG_EAC_R11_SNORM, PFG_ETC1_RGB8_UNORM,
   PFG_ETC2_RGB8_UNORM_SRGB, PFG_ETC2_RGB8A1_UNORM, PFG_ETC2_RGB8A1_UNORM_SRGB,
   PFG_ATC_RGB,
   PFG_BC2_UNORM, PFG_BC2_UNORM_SRGB, PFG_BC3_UNORM, PFG_BC3_UNORM_SRGB,
   PFG_BC5_SNORM, PFG_BC5_UNORM, PFG_BC6H_SF16, PFG_BC6H_UF16,
   PFG_BC7_UNORM, PFG_BC7_UNORM_SRGB,
   PFG_ETC2_RGBA8_UNORM, PFG_ETC2_RGBA8_UNORM_SRGB,
   PFG_EAC_R11G11_UNORM, PFG_EAC_R11G11_SNORM,
   PFG_ATC_RGBA_EXPLICIT_ALPHA, PFG_ATC_RGBA_INTERPOLATED_ALPHA,
   PFG_PVRTC_RGB2, PFG_PVRTC_RGBA2, PFG_PVRTC2_2BPP,
   PFG_PVRTC_RGB4, PFG_PVRTC_RGBA4, PFG_PVRTC2_4BPP]

/-! ### Per-pixel colour codec (the cases the claims exercise)

The colour lanes are modelled as exact rationals.  At every input a theorem
below evaluates, the binary32 arithmetic of the source is exact, so the
rational value coincides with the float value. -/

/-- `Math::saturate`: clamp to `[0, 1]`. -/
def saturate (x : ℚ) : ℚ := min (max x 0) 1

/-- `static_cast<uint8>( Math::saturate( x ) * 15.0f + 0.5f )`: the float
to `uint8` conversion truncates toward zero, i.e. takes the floor of the
(non-negative) value. -/
def quantNibble (x : ℚ) : Nat := (⌊saturate x * 15 + 1 / 2⌋).toNat

/-- `packColour` case `PFG_B4G4R4A4_UNORM` (source lines 573-582).  Note
that the source builds the alpha nibble `ia` from `rgbaPtr[2]` — the blue
lane — not from `rgbaPtr[3]`. -/
def packColour_B4G4R4A4 (r g b a : ℚ) : Nat :=
  let ir := quantNibble r
  let ig := quantNibble g
  let ib := quantNibble b
  let ia := quantNibble b
  (ia <<< 12) ||| (ir <<< 8) ||| (ig <<< 4) ||| ib

/-- `unpackColour` case `PFG_B4G4R4A4_UNORM` (source lines 843-851):
each nibble divided by `15.0f`, alpha read from bits 12-15. -/
def unpackColour_B4G4R4A4 (val : Nat) : ℚ × ℚ × ℚ × ℚ :=
  (((val >>> 8) &&& 0xF : Nat) / 15,
   ((val >>> 4) &&& 0xF : Nat) / 15,
   ((val &&& 0xF : Nat) : ℚ) / 15,
   ((val >>> 12) &&& 0xF : Nat) / 15)

/-- Two's-complement decode of a byte, as the C++ `int8` reinterpretation
of the stored bits. -/
def int8OfBits (bits : Nat) : Int :=
  if bits % 256 < 128 then (bits % 256 : Nat) else (bits % 256 : Nat) - 256

/-- Two's-complement decode of a 16-bit word. -/
def int16OfBits (bits : Nat) : Int :=
  if bits % 65536 < 32768 then (bits % 65536 : Nat) else (bits % 65536 : Nat) - 65536

/-- The signed-normalized lane of `convertToFloat<T>`: `val /
(float)std::numeric_limits<T>::max()`, then `Ogre::max( rawValue, -1.0f )`
("-128 & -127 and -32768 & -32767 both map to -1 according to D3D10
rules"). `maxVal` is `2^(w-1) - 1` for a `w`-bit signed `T`. -/
def convertToFloatSNormLane (maxVal : Int) (stored : Int) : ℚ :=
  max ((stored : ℚ) / (maxVal : ℚ)) (-1)

/-- `unpackColour` case `PFG_R8_SNORM`: `convertToFloat<int8>` with one
component; remaining colour lanes 0, alpha 1. -/
def unpackColour_R8_SNORM (bits : Nat) : ℚ × ℚ × ℚ × ℚ :=
  (convertToFloatSNormLane 127 (int8OfBits bits), 0, 0, 1)

/-- `unpackColour` case `PFG_R16_SNORM`: `convertToFloat<int16>` with one
component. -/
def unpackColour_R16_SNORM (bits : Nat) : ℚ × ℚ × ℚ × ℚ :=
  (convertToFloatSNormLane 32767 (int16OfBits bits), 0, 0, 1)

/-! ### TextureBox and bulkPixelConversion

`TextureBox` lives in a header outside this translation unit.  Modelled
from the spec: a region carries `width, height, depthOrSlices`, offsets
`(x, y, z)`, its buffer's `bytesPerPixel`/`bytesPerRow`/`bytesPerImage`
strides, `sliceStart`/`numSlices`, and the raw buffer, here a byte-indexed
map `Nat → Nat`. -/

structure TextureBox where
  x : Nat
  y : Nat
  z : Nat
  width : Nat
  height : Nat
  depthOrSlices : Nat
  sliceStart : Nat
  numSlices : Nat
  bytesPerPixel : Nat
  bytesPerRow : Nat
  bytesPerImage : Nat
  data : Nat → Nat

/-- Modelled from the spec: `TextureBox::equalSize` — the two regions
report identical logical `(width, height, depthOrSlices)`. -/
def TextureBox.equalSize (a b : TextureBox) : Prop :=
  a.width = b.width ∧ a.height = b.height ∧ a.depthOrSlices = b.depthOrSlices

/-- Modelled from the spec: `TextureBox::at(x, y, z)` as the byte offset of
a pixel into the backing buffer. -/
def TextureBox.atOfs (box : TextureBox) (px py pz : Nat) : Nat :=
  pz * box.bytesPerImage + py * box.bytesPerRow + px * box.bytesPerPixel

/-- Modelled from the spec: `TextureBox::getZOrSlice`. -/
def TextureBox.getZOrSlice (box : TextureBox) : Nat := max box.z box.sliceStart

/-- `memcpy` over byte-indexed buffers. -/
def memcpyBytes (dst : Nat → Nat) (dstOfs : Nat) (src : Nat → Nat) (srcOfs len : Nat) :
    Nat → Nat :=
  fun i => if dstOfs ≤ i ∧ i < dstOfs + len then src (srcOfs + (i - dstOfs)) else dst i

/-- The same-format compressed copy of `bulkPixelConversion` (block rows
per slice, each side honouring its own strides). -/
def copyCompressedSameFormat (src dst : TextureBox) (blockWidth blockHeight : Nat) :
    Nat → Nat :=
  let srcOfs0 := (src.x + blockWidth - 1) / blockWidth +
      (src.y + blockHeight - 1) / blockHeight * src.bytesPerRow +
      src.getZOrSlice * src.bytesPerImage
  let dstOfs0 := (dst.x + blockWidth - 1) / blockWidth +
      (dst.y + blockHeight - 1) / blockHeight * dst.bytesPerRow +
      dst.getZOrSlice * dst.bytesPerImage
  let compressedSrcY := (src.y + blockHeight - 1) / blockHeight
  let compressedSrcMaxY := (src.y + src.height + blockHeight - 1) / blockHeight
  (List.range src.numSlices).foldl
    (fun buf zi =>
      (List.range (compressedSrcMaxY - compressedSrcY)).foldl
        (fun buf yi =>
          memcpyBytes buf (dstOfs0 + zi * dst.bytesPerImage + yi * dst.bytesPerRow)
            src.data (srcOfs0 + zi * src.bytesPerImage + yi * src.bytesPerRow)
            src.bytesPerRow)
        buf)
    dst.data

/-- The same-format uncompressed copy of `bulkPixelConversion`: per slice,
per row, a raw copy of `width * bytesPerPixel` bytes, each side advancing
by its own strides. -/
def copySameFormatRows (src dst : TextureBox) : Nat → Nat :=
  let srcBase := src.atOfs src.x src.y src.getZOrSlice
  let dstBase := dst.atOfs dst.x dst.y dst.getZOrSlice
  (List.range src.depthOrSlices).foldl
    (fun buf zi =>
      (List.range src.height).foldl
        (fun buf yi =>
          memcpyBytes buf (dstBase + zi * dst.bytesPerImage + yi * dst.bytesPerRow)
            src.data (srcBase + zi * src.bytesPerImage + yi * src.bytesPerRow)
            (src.width * src.bytesPerPixel))
        buf)
    dst.data

/-- The brute-force per-pixel loop of `bulkPixelConversion`:
`unpackColour` from the source pixel, `packColour` into the destination
pixel.  The per-pixel codec (`unpackColour` followed by `packColour`,
whose per-format numeric cases are modelled separately above) is passed in
as `convPixel srcBuf srcOfs dstBuf dstOfs`. -/
def convertPerPixel (convPixel : (Nat → Nat) → Nat → (Nat → Nat) → Nat → (Nat → Nat))
    (src dst : TextureBox) : Nat → Nat :=
  let srcBase := src.atOfs src.x src.y src.getZOrSlice
  let dstBase := dst.atOfs dst.x dst.y dst.getZOrSlice
  (List.range src.depthOrSlices).foldl
    (fun buf zi =>
      (List.range src.height).foldl
        (fun buf yi =>
          (List.range src.width).foldl
            (fun buf xi =>
              convPixel src.data
                (srcBase + zi * src.bytesPerImage + yi * src.bytesPerRow +
                  xi * src.bytesPerPixel)
                buf
                (dstBase + zi * dst.bytesPerImage + yi * dst.bytesPerRow +
                  xi * dst.bytesPerPixel))
            buf)
        buf)
    dst.data

/-- `PixelFormatGpuUtils::bulkPixelConversion`, returning the destination
buffer on success.  The paths are checked in the source's order:
1. whole-buffer raw copy (same format, matching image strides, zero
   offsets);
2. compressed formats: same format copies block rows (`NotImplemented` if
   the block edge is 0), different formats raise `NotImplemented` before
   touching the destination;
3. same uncompressed format: strided row copies;
4. different uncompressed formats: the brute-force per-pixel loop.
An `.error` result models the C++ exception and carries no buffer: nothing
was written to the destination. -/
def bulkPixelConversion (convPixel : (Nat → Nat) → Nat → (Nat → Nat) → Nat → (Nat → Nat))
    (src : TextureBox) (srcFormat : PixelFormatGpu)
    (dst : TextureBox) (dstFormat : PixelFormatGpu) : Except ErrKind (Nat → Nat) :=
  if src.bytesPerImage = dst.bytesPerImage ∧ srcFormat = dstFormat ∧
      src.x = 0 ∧ dst.x = 0 ∧ src.y = 0 ∧ dst.y = 0 ∧ src.z = 0 ∧ dst.z = 0 then
    .ok (memcpyBytes dst.data (dst.atOfs 0 0 dst.sliceStart)
          src.data (src.atOfs 0 0 src.sliceStart) (src.bytesPerImage * src.numSlices))
  else if isCompressed srcFormat = true ∨ isCompressed dstFormat = true then
    if srcFormat = dstFormat then
      let blockWidth := getCompressedBlockWidth dstFormat false
      let blockHeight := getCompressedBlockHeight dstFormat false
      if blockWidth = 0 ∨ blockHeight = 0 then .error .notImplemented
      else .ok (copyCompressedSameFormat src dst blockWidth blockHeight)
    else .error .notImplemented
  else if srcFormat = dstFormat then
    .ok (copySameFormatRows src dst)
  else
    .ok (convertPerPixel convPixel src dst)

/-! ## Theorems -/

/-- C1: round-trip of `packColour` / `unpackColour` at `PFG_B4G4R4A4_UNORM`
for the input `(0, 0, 0, 1)`.  The pack case derives the alpha nibble from
the blue lane, so the round-tripped alpha is `0` and the error in the alpha
lane is `1`, far beyond the one quantization step `1/15` the round-trip
property allows for a 4-bit lane.  Every arithmetic step of the source is
exact in binary32 at this input, so the rational evaluation is the float
evaluation. -/
theorem b4g4r4a4_roundtrip_alpha_exceeds_step :
    (unpackColour_B4G4R4A4 (packColour_B4G4R4A4 0 0 0 1)).2.2.2 = 0 ∧
    ¬((1 : ℚ) - (unpackColour_B4G4R4A4 (packColour_B4G4R4A4 0 0 0 1)).2.2.2 ≤ 1 / 15) := by
  have hq : quantNibble 0 = 0 := by
    unfold quantNibble saturate
    norm_num
  have hpack : packColour_B4G4R4A4 0 0 0 1 = 0 := by
    unfold packColour_B4G4R4A4
    rw [hq]
    rfl
  rw [hpack]
  unfold unpackColour_B4G4R4A4
  norm_num

/-- Loop-to-list correspondence: the accumulation loop of
`calculateSizeBytes` computes the error-propagating sum of `getSizeBytes`
over the levels it visits. -/
theorem calculateSizeBytesAux_eq_sum (slices : Nat) (format : PixelFormatGpu)
    (rowAlignment : Nat) :
    ∀ (n width height depth : Nat),
      calculateSizeBytesAux slices format rowAlignment width height depth n =
        mipLevelSizeSum slices format rowAlignment (mipLevels width height depth n) := by
  intro n
  induction n with
  | zero => intro w h d; rfl
  | succ n ih =>
    intro w h d
    simp only [calculateSizeBytesAux, mipLevels]
    split
    · simp only [mipLevelSizeSum]
      cases getSizeBytes w h d slices format rowAlignment with
      | error e => rfl
      | ok v => rw [ih]
    · rfl

/-- C2 (amended): `calculateSizeBytes` is the sum of `getSizeBytes` over
the levels visited by the halving loop, but the loop tests the dimensions
_before_ accumulating, so the 1×1 level is never included: for
`width = height = 256`, `numMipmaps = 9`, exactly eight levels (256×256
down to 2×2) are summed, and the ninth (1×1) level contributes nothing —
mip counts 8 and 9 give the same total. -/
theorem calculateSizeBytes_additivity :
    (∀ (width height depth slices : Nat) (format : PixelFormatGpu)
        (numMipmaps rowAlignment : Nat),
      calculateSizeBytes width height depth slices format numMipmaps rowAlignment =
        mipLevelSizeSum slices format rowAlignment (mipLevels width height depth numMipmaps)) ∧
    mipLevels 256 256 1 9 =
      [(256, 256, 1), (128, 128, 1), (64, 64, 1), (32, 32, 1),
       (16, 16, 1), (8, 8, 1), (4, 4, 1), (2, 2, 1)] ∧
    calculateSizeBytes 256 256 1 1 PFG_RGBA8_UNORM 9 4 = .ok 349520 ∧
    calculateSizeBytes 256 256 1 1 PFG_RGBA8_UNORM 8 4 = .ok 349520 := by
  refine ⟨?_, rfl, rfl, rfl⟩
  intro w h d s format n a
  exact calculateSizeBytesAux_eq_sum s format a n w h d

/-- C2 (counterexample): the claim says the accumulated sum for
`w = h = 256, N = 9` includes the 1×1 level as the ninth and last summand.
`specMipChainSum` follows that reading of the claim and yields 349524
bytes for `PFG_RGBA8_UNORM`, while `calculateSizeBytes` stops before the
1×1 level and yields 349520. -/
theorem calculateSizeBytes_excludes_final_level :
    calculateSizeBytes 256 256 1 1 PFG_RGBA8_UNORM 9 4 = .ok 349520 ∧
    specMipChainSum 1 PFG_RGBA8_UNORM 4 256 256 1 9 = .ok 349524 ∧
    calculateSizeBytes 256 256 1 1 PFG_RGBA8_UNORM 9 4 ≠
      specMipChainSum 1 PFG_RGBA8_UNORM 4 256 256 1 9 := by
  refine ⟨rfl, rfl, fun h => ?_⟩
  exact absurd (Except.ok.inj h) (by decide)

/-- `getFamily` applied twice equals `getFamily` (every representative
maps to itself). -/
theorem getFamily_idem_aux :
    ∀ format, getFamily (getFamily format) = getFamily format := by decide

/-- `getFamily` preserves `bytesPerPixel`. -/
theorem bytesPerPixel_getFamily :
    ∀ format, getBytesPerPixel (getFamily format) = getBytesPerPixel format := by decide

/-- `getFamily` preserves `componentCount` for every format except
`PFG_BGRX8_UNORM_SRGB` (whose descriptor says 3 components while its
family representative `PFG_BGRX8_UNORM` says 4). -/
theorem components_getFamily_except :
    ∀ format, format = PFG_BGRX8_UNORM_SRGB ∨
      getNumberOfComponents (getFamily format) = getNumberOfComponents format := by decide

/-- C3 (amended): `getFamily` is idempotent, and two formats sharing a
family value have equal `bytesPerPixel`; equal `componentCount` holds for
all family-sharing pairs except those involving `PFG_BGRX8_UNORM_SRGB`. -/
theorem getFamily_spec :
    (∀ format, getFamily (getFamily format) = getFamily format) ∧
    (∀ a b, getFamily a = getFamily b → getBytesPerPixel a = getBytesPerPixel b) ∧
    (∀ a b, getFamily a = getFamily b →
      a ≠ PFG_BGRX8_UNORM_SRGB → b ≠ PFG_BGRX8_UNORM_SRGB →
      getNumberOfComponents a = getNumberOfComponents b) := by
  refine ⟨getFamily_idem_aux, ?_, ?_⟩
  · intro a b h
    rw [← bytesPerPixel_getFamily a, ← bytesPerPixel_getFamily b, h]
  · intro a b h ha hb
    rcases components_getFamily_except a with h1 | h1
    · exact absurd h1 ha
    rcases components_getFamily_except b with h2 | h2
    · exact absurd h2 hb
    rw [← h1, ← h2, h]

/-- C3 (witness): applying the family/bytes-per-pixel part at the
`PFG_RGBA8` family. -/
theorem getFamily_spec_witness :
    getBytesPerPixel PFG_RGBA8_UNORM_SRGB = getBytesPerPixel PFG_RGBA8_UNORM :=
  getFamily_spec.2.1 PFG_RGBA8_UNORM_SRGB PFG_RGBA8_UNORM (by decide)

/-- C3 (counterexample): `PFG_BGRX8_UNORM` and `PFG_BGRX8_UNORM_SRGB`
share the family `PFG_BGRX8_UNORM` but their descriptor rows give 4 and 3
components respectively, refuting the claim that family-sharing formats
have equal `componentCount`. -/
theorem getFamily_components_cex :
    getFamily PFG_BGRX8_UNORM_SRGB = getFamily PFG_BGRX8_UNORM ∧
    getNumberOfComponents PFG_BGRX8_UNORM = 4 ∧
    getNumberOfComponents PFG_BGRX8_UNORM_SRGB = 3 := by decide

/-- C4: `PFG_ETC2_RGB8_UNORM` is missing from the 8-bytes-per-block case
list of `getSizeBytes`, so it falls into the `default` branch and raises
`ERR_INVALIDPARAMS`, while its sRGB twin (handled by that case list)
returns `ceil(128/4) * ceil(128/4) * 8 = 8192` bytes as the claim states
for the whole ETC2-RGB family. -/
theorem getSizeBytes_etc2_rgb8_missing :
    getSizeBytes 128 128 1 1 PFG_ETC2_RGB8_UNORM_SRGB 4 = .ok 8192 ∧
    getSizeBytes 128 128 1 1 PFG_ETC2_RGB8_UNORM 4 = .error .invalidParams :=
  ⟨rfl, rfl⟩

/-- The int-to-float cast is the identity below `2^24`. -/
theorem floatCastU32_eq_of_lt (n : Nat) (h : n < 2 ^ 24) : floatCastU32 n = n := by
  unfold floatCastU32
  rw [if_pos h]

/-- C5 (counterexample): at `maxResolution = 2^25 - 1 = 33554431` the
claim's formula `floor(log2 n) + 1` gives 25, but the pipeline returns 26:
the IEEE int-to-float cast alone rounds `2^25 - 1` up to `2^25` (a tie
between the representable neighbours `33554430` and `33554432`, settled to
the even significand), and `log2f` at that power of two is exact for any
faithful rounding. -/
theorem getMaxMipmapCount_cast_overshoot :
    getMaxMipmapCount 33554431 = 26 ∧ Nat.log2 33554431 + 1 = 25 := by
  have h24 : Nat.log2 33554431 = 24 := by
    rw [Nat.log2_eq_log_two]
    exact Nat.log_eq_of_pow_le_of_lt_pow (by norm_num) (by norm_num)
  have h25 : Nat.log2 33554432 = 25 := by
    rw [Nat.log2_eq_log_two]
    exact Nat.log_eq_of_pow_le_of_lt_pow (by norm_num) (by norm_num)
  have hcast : floatCastU32 33554431 = 33554432 := by
    unfold floatCastU32
    rw [h24]
    decide
  constructor
  · show (if (33554431 : Nat) = 0 then 0
      else Nat.log2 (floatCastU32 33554431) + 1) = 26
    rw [if_neg (by norm_num), hcast, h25]
  · rw [h24]

/-- C5 (amended): `getMaxMipmapCount 0 = 0`, `getMaxMipmapCount 256 = 9`,
`getMaxMipmapCount 255 = 8`; the two- and three-dimension overloads reduce
to the max of their arguments; and for positive resolutions below `2^19`
(where the cast is exact and any faithfully rounded `log2f` floors to the
exact `⌊log2⌋`) the count `c` satisfies `2^(c-1) ≤ maxResolution < 2^c`,
i.e. `c = ⌊log2⌋ + 1`.  Beyond that range the binary32 pipeline can exceed
the formula near powers of two (see the counterexample at `2^25 - 1`). -/
theorem getMaxMipmapCount_spec :
    getMaxMipmapCount 0 = 0 ∧ getMaxMipmapCount 256 = 9 ∧ getMaxMipmapCount 255 = 8 ∧
    (∀ n, 0 < n → n < 2 ^ 19 → floatCastU32 n = n ∧
      2 ^ (getMaxMipmapCount n - 1) ≤ n ∧ n < 2 ^ getMaxMipmapCount n) ∧
    (∀ w h, getMaxMipmapCount2 w h = getMaxMipmapCount (max w h)) ∧
    (∀ w h d, getMaxMipmapCount3 w h d = getMaxMipmapCount (max (max w h) d)) := by
  have h256 : Nat.log2 256 = 8 := by
    rw [Nat.log2_eq_log_two]
    exact Nat.log_eq_of_pow_le_of_lt_pow (by norm_num) (by norm_num)
  have h255 : Nat.log2 255 = 7 := by
    rw [Nat.log2_eq_log_two]
    exact Nat.log_eq_of_pow_le_of_lt_pow (by norm_num) (by norm_num)
  have hc256 : floatCastU32 256 = 256 := floatCastU32_eq_of_lt 256 (by norm_num)
  have hc255 : floatCastU32 255 = 255 := floatCastU32_eq_of_lt 255 (by norm_num)
  refine ⟨rfl, by simp [getMaxMipmapCount, hc256, h256],
    by simp [getMaxMipmapCount, hc255, h255],
    ?_, fun _ _ => rfl, fun _ _ _ => rfl⟩
  intro n hn hsmall
  have hne : n ≠ 0 := hn.ne'
  have hcast : floatCastU32 n = n :=
    floatCastU32_eq_of_lt n (lt_trans hsmall (by norm_num))
  refine ⟨hcast, ?_, ?_⟩
  · simp only [getMaxMipmapCount, hne, if_false, hcast, Nat.add_sub_cancel]
    exact Nat.log2_self_le hne
  · simp only [getMaxMipmapCount, hne, if_false, hcast]
    exact Nat.lt_log2_self

/-- C5 (witness): the exact-cast and bracketing parts applied at
resolution 256. -/
theorem getMaxMipmapCount_spec_witness :
    floatCastU32 256 = 256 ∧
    2 ^ (getMaxMipmapCount 256 - 1) ≤ 256 ∧ 256 < 2 ^ getMaxMipmapCount 256 :=
  getMaxMipmapCount_spec.2.2.2.1 256 (by norm_num) (by norm_num)

/-- The signed-normalized decode clamps to `-1` for every stored value at
or below `-maxVal`. -/
theorem convertToFloatSNormLane_clamps (maxVal stored : Int)
    (hm : 0 < maxVal) (hv : stored ≤ -maxVal) :
    convertToFloatSNormLane maxVal stored = -1 := by
  unfold convertToFloatSNormLane
  apply max_eq_right
  have hm' : (0 : ℚ) < (maxVal : ℚ) := by exact_mod_cast hm
  rw [div_le_iff₀ hm']
  have hv' : (stored : ℚ) ≤ -(maxVal : ℚ) := by exact_mod_cast hv
  linarith

/-- C6: unpacking a signed-normalized channel divides the stored
two's-complement value by `2^(w-1) - 1` and clamps below at `-1`; with the
clamp inactive for every stored value of at least `-(2^(w-1) - 1)`, and
both extreme negative codes decoding to exactly `-1` for the 8- and 16-bit
channels (`-128`/`-127`, `-32768`/`-32767`). -/
theorem convertToFloat_snorm_spec :
    (∀ maxVal stored : Int, 0 < maxVal → -maxVal ≤ stored →
      convertToFloatSNormLane maxVal stored = (stored : ℚ) / (maxVal : ℚ)) ∧
    (unpackColour_R8_SNORM 0x80).1 = -1 ∧ (unpackColour_R8_SNORM 0x81).1 = -1 ∧
    (unpackColour_R16_SNORM 0x8000).1 = -1 ∧ (unpackColour_R16_SNORM 0x8001).1 = -1 := by
  refine ⟨?_, ?_, ?_, ?_, ?_⟩
  · intro m v hm hv
    unfold convertToFloatSNormLane
    apply max_eq_left
    have hm' : (0 : ℚ) < (m : ℚ) := by exact_mod_cast hm
    rw [le_div_iff₀ hm']
    have hv' : -(m : ℚ) ≤ (v : ℚ) := by exact_mod_cast hv
    linarith
  · show convertToFloatSNormLane 127 (int8OfBits 0x80) = -1
    rw [show int8OfBits 0x80 = -128 from by decide]
    exact convertToFloatSNormLane_clamps 127 (-128) (by decide) (by decide)
  · show convertToFloatSNormLane 127 (int8OfBits 0x81) = -1
    rw [show int8OfBits 0x81 = -127 from by decide]
    exact convertToFloatSNormLane_clamps 127 (-127) (by decide) (by decide)
  · show convertToFloatSNormLane 32767 (int16OfBits 0x8000) = -1
    rw [show int16OfBits 0x8000 = -32768 from by decide]
    exact convertToFloatSNormLane_clamps 32767 (-32768) (by decide) (by decide)
  · show convertToFloatSNormLane 32767 (int16OfBits 0x8001) = -1
    rw [show int16OfBits 0x8001 = -32767 from by decide]
    exact convertToFloatSNormLane_clamps 32767 (-32767) (by decide) (by decide)

/-- C6 (witness): the no-clamp part applied to the 8-bit stored value 5. -/
theorem convertToFloat_snorm_spec_witness :
    convertToFloatSNormLane 127 5 = ((5 : Int) : ℚ) / ((127 : Int) : ℚ) :=
  convertToFloat_snorm_spec.1 127 5 (by decide) (by decide)

/-- The 4×4-block families of `getCompressedBlockWidth`: BCn, ETC2, EAC
and ATC. -/
def fourByFourBlockFormats : List PixelFormatGpu :=
  [PFG_BC1_UNORM, PFG_BC1_UNORM_SRGB, PFG_BC2_UNORM, PFG_BC2_UNORM_SRGB,
   PFG_BC3_UNORM, PFG_BC3_UNORM_SRGB, PFG_BC4_UNORM, PFG_BC4_SNORM,
   PFG_BC5_UNORM, PFG_BC5_SNORM, PFG_BC6H_UF16, PFG_BC6H_SF16,
   PFG_BC7_UNORM, PFG_BC7_UNORM_SRGB,
   PFG_ETC2_RGB8_UNORM, PFG_ETC2_RGB8_UNORM_SRGB,
   PFG_ETC2_RGBA8_UNORM, PFG_ETC2_RGBA8_UNORM_SRGB,
   PFG_ETC2_RGB8A1_UNORM, PFG_ETC2_RGB8A1_UNORM_SRGB,
   PFG_EAC_R11_UNORM, PFG_EAC_R11_SNORM,
   PFG_EAC_R11G11_UNORM, PFG_EAC_R11G11_SNORM,
   PFG_ATC_RGB, PFG_ATC_RGBA_EXPLICIT_ALPHA, PFG_ATC_RGBA_INTERPOLATED_ALPHA]

/-- The PVRTC families. -/
def pvrtcFormats : List PixelFormatGpu :=
  [PFG_PVRTC_RGB2, PFG_PVRTC_RGBA2, PFG_PVRTC_RGB4, PFG_PVRTC_RGBA4,
   PFG_PVRTC2_2BPP, PFG_PVRTC2_4BPP]

/-- C7: `getCompressedBlockWidth` returns 4 for every 4×4-block family,
0 for every PVRTC format regardless of `apiStrict`, 0 for ETC1 exactly
when `apiStrict`, and 1 for every uncompressed format;
`getCompressedBlockHeight` coincides with `getCompressedBlockWidth`
everywhere. -/
theorem getCompressedBlockWidth_spec :
    ∀ (format : PixelFormatGpu) (apiStrict : Bool),
      getCompressedBlockHeight format apiStrict = getCompressedBlockWidth format apiStrict ∧
      (format ∈ fourByFourBlockFormats → getCompressedBlockWidth format apiStrict = 4) ∧
      (format ∈ pvrtcFormats → getCompressedBlockWidth format apiStrict = 0) ∧
      getCompressedBlockWidth PFG_ETC1_RGB8_UNORM true = 0 ∧
      getCompressedBlockWidth PFG_ETC1_RGB8_UNORM false = 4 ∧
      (isCompressed format = false → getCompressedBlockWidth format apiStrict = 1) := by
  set_option maxRecDepth 8192 in decide

/-- C7 (witness): the 4×4-block part applied at `PFG_BC1_UNORM` with
`apiStrict = true`, and the uncompressed part at `PFG_RGBA8_UNORM`. -/
theorem getCompressedBlockWidth_spec_witness :
    getCompressedBlockWidth PFG_BC1_UNORM true = 4 ∧
    getCompressedBlockWidth PFG_RGBA8_UNORM true = 1 :=
  ⟨(getCompressedBlockWidth_spec PFG_BC1_UNORM true).2.1 (by decide),
   (getCompressedBlockWidth_spec PFG_RGBA8_UNORM true).2.2.2.2.2 (by decide)⟩

/-- C8: `bulkPixelConversion` between equal-size regions of two different
formats, at least one of them compressed, always returns
`ERR_NOT_IMPLEMENTED`, for any per-pixel codec — the whole-buffer fast
path requires equal formats, the compressed branch raises before any write,
and an error result carries no destination buffer. -/
theorem bulkPixelConversion_compressed_mismatch
    (convPixel : (Nat → Nat) → Nat → (Nat → Nat) → Nat → (Nat → Nat))
    (src : TextureBox) (srcFormat : PixelFormatGpu)
    (dst : TextureBox) (dstFormat : PixelFormatGpu)
    (hsize : src.equalSize dst) (hne : srcFormat ≠ dstFormat)
    (hcomp : isCompressed srcFormat = true ∨ isCompressed dstFormat = true) :
    bulkPixelConversion convPixel src srcFormat dst dstFormat = .error .notImplemented := by
  unfold bulkPixelConversion
  rw [if_neg (fun hc => hne hc.2.1), if_pos hcomp, if_neg hne]

/-- A concrete 4×4, one-slice region used to witness C8. -/
def witnessBoxA : TextureBox :=
  { x := 0, y := 0, z := 0, width := 4, height := 4, depthOrSlices := 1,
    sliceStart := 0, numSlices := 1, bytesPerPixel := 0,
    bytesPerRow := 8, bytesPerImage := 8, data := fun _ => 0 }

/-- A second concrete region of the same logical size. -/
def witnessBoxB : TextureBox :=
  { x := 0, y := 0, z := 0, width := 4, height := 4, depthOrSlices := 1,
    sliceStart := 0, numSlices := 1, bytesPerPixel := 0,
    bytesPerRow := 16, bytesPerImage := 16, data := fun _ => 0 }

/-- C8 (witness): converting a BC1 region into an equal-size BC2 region
returns `ERR_NOT_IMPLEMENTED`. -/
theorem bulkPixelConversion_compressed_mismatch_witness :
    witnessBoxA.equalSize witnessBoxB ∧
    bulkPixelConversion (fun _ _ dstBuf _ => dstBuf)
      witnessBoxA PFG_BC1_UNORM witnessBoxB PFG_BC2_UNORM = .error .notImplemented :=
  ⟨⟨rfl, rfl, rfl⟩,
   bulkPixelConversion_compressed_mismatch (fun _ _ dstBuf _ => dstBuf)
     witnessBoxA PFG_BC1_UNORM witnessBoxB PFG_BC2_UNORM
     ⟨rfl, rfl, rfl⟩ (by decide) (Or.inl rfl)⟩

/-- Whether the compressed-size `switch` recognizes a format is a property
of the format alone, and coincides with membership in
`sizedCompressedFormats`. -/
theorem compressedSizeBytes_none_iff :
    ∀ (format : PixelFormatGpu) (w h d s : Nat),
      compressedSizeBytes format w h d s = none ↔ format ∉ sizedCompressedFormats := by
  intro format w h d s
  cases format <;> simp [compressedSizeBytes, sizedCompressedFormats]

/-- Aligning an offset of zero yields zero for any positive alignment. -/
theorem alignToNextMultiple_zero (alignment : Nat) (h : 0 < alignment) :
    alignToNextMultiple 0 alignment = 0 := by
  unfold alignToNextMultiple
  rw [Nat.zero_add, Nat.div_eq_of_lt (Nat.sub_lt h Nat.one_pos), Nat.zero_mul]

/-- C10: `getSizeBytes` raises `ERR_INVALIDPARAMS` exactly for compressed
formats outside the case lists of its `switch`; every format without the
compressed flag returns without error, and uncompressed formats whose
descriptor `bytesPerPixel` is 0 (`PFG_R1_UNORM`, the YUV/planar rows)
silently return 0 bytes for any dimensions. -/
theorem getSizeBytes_error_iff (format : PixelFormatGpu)
    (w h d s align : Nat) (halign : 0 < align) :
    (getSizeBytes w h d s format align = .error .invalidParams ↔
      isCompressed format = true ∧ format ∉ sizedCompressedFormats) ∧
    (isCompressed format = false → ∃ v, getSizeBytes w h d s format align = .ok v) ∧
    (isCompressed format = false → getBytesPerPixel format = 0 →
      getSizeBytes w h d s format align = .ok 0) := by
  cases hc : isCompressed format with
  | false =>
    refine ⟨?_,
      fun _ => ⟨alignToNextMultiple (w * getBytesPerPixel format) align * (h * d * s), ?_⟩,
      fun _ hbpp => ?_⟩
    · simp [getSizeBytes, hc]
    · simp [getSizeBytes, hc]
    · simp [getSizeBytes, hc, hbpp, alignToNextMultiple_zero align halign]
  | true =>
    cases hopt : compressedSizeBytes format w h d s with
    | some v =>
      have hmem : format ∈ sizedCompressedFormats := by
        by_contra hnot
        rw [← compressedSizeBytes_none_iff format w h d s] at hnot
        rw [hopt] at hnot
        cases hnot
      refine ⟨?_, ?_, ?_⟩
      · simp [getSizeBytes, hc, hopt, hmem]
      · intro habs; cases habs
      · intro habs; cases habs
    | none =>
      have hnotmem : format ∉ sizedCompressedFormats :=
        (compressedSizeBytes_none_iff format w h d s).mp hopt
      refine ⟨?_, ?_, ?_⟩
      · simp [getSizeBytes, hc, hopt, hnotmem]
      · intro habs; cases habs
      · intro habs; cases habs

/-- C10 (witness): `PFG_R1_UNORM` is uncompressed with `bytesPerPixel = 0`
and sizes to 0 bytes; `PFG_BC1_UNORM` does not raise. -/
theorem getSizeBytes_error_iff_witness :
    getSizeBytes 4 4 1 1 PFG_R1_UNORM 4 = .ok 0 :=
  (getSizeBytes_error_iff PFG_R1_UNORM 4 4 1 1 4 (by decide)).2.2 rfl rfl

/-- C9: a 1×1×1 base level contributes no bytes: the loop of
`calculateSizeBytes` tests the dimensions before accumulating any level,
so every mip count, slice count, format and alignment yields 0. -/
theorem calculateSizeBytes_one_cube (slices : Nat) (format : PixelFormatGpu)
    (numMipmaps rowAlignment : Nat) :
    calculateSizeBytes 1 1 1 slices format numMipmaps rowAlignment = .ok 0 := by
  cases numMipmaps with
  | zero => rfl
  | succ n => simp [calculateSizeBytes, calculateSizeBytesAux]

end OgrePF
